import Mathlib

/-!
Verification development for the wezterm Windows GUI connection layer
(`window/src/os/windows/connection.rs`) and the scripting window proxy
(`wezterm-gui/src/scripting/guiwin.rs`).

The Rust code is shallowly embedded: OS calls (registry reads, monitor
enumeration, display-config queries) become explicit inputs, and the
per-query rendezvous channels become the `Option` of the value that the
work item sent into them.
-/

namespace WezTerm

/-! ## Appearance query (`get_appearance`) -/

/-- Light/dark theme tag returned by the appearance query. -/
inductive Appearance
  | Light
  | Dark
deriving DecidableEq, Repr

/-- View of the HKCU registry state consulted by `get_appearance`: the outer
`Option` is whether the `...\Themes\Personalize` subkey opens successfully,
the inner `Option Nat` is the readable value of `AppsUseLightTheme`
(`none` when the value is absent or unreadable, matching Rust's
`get_value(...).unwrap_or(1)` fallback site). -/
structure ThemeRegistry where
  personalizeKey : Option (Option Nat)
deriving DecidableEq, Repr

/-- Embedding of `get_appearance` (connection.rs lines 36-49): open the
Personalize subkey; on success read `AppsUseLightTheme` defaulting to 1 and
return Light iff it equals 1; on failure to open, return Light. -/
def get_appearance (reg : ThemeRegistry) : Appearance :=
  match reg.personalizeKey with
  | some theme =>
      let light := theme.getD 1 == 1
      if light then Appearance.Light else Appearance.Dark
  | none => Appearance.Light

/-! ## Dimensions query (`GuiWin get_dimensions`) -/

/-- Raw dimensions carried by the `GetDimensions` reply before the lua-facing
record is built (guiwin.rs lines 110-116). -/
structure RawDims where
  pixel_width : Nat
  pixel_height : Nat
  dpi : Nat
deriving DecidableEq, Repr

/-- Lua-facing record built by `get_dimensions` (guiwin.rs lines 101-107):
exactly pixel_width, pixel_height, dpi and is_full_screen. -/
structure Dims where
  pixel_width : Nat
  pixel_height : Nat
  dpi : Nat
  is_full_screen : Bool
deriving DecidableEq, Repr

/-- Modelled from the spec: the `WindowState` bitmask lives in the window
crate, not under src; the spec says only that `FULL_SCREEN` is one bit of a
richer bitmask. We fix it as the designated bit 2, value 4. -/
def FULL_SCREEN : Nat := 4

/-- Embedding of bitflags `contains`: `state & flag == flag`. -/
def windowStateContains (state flag : Nat) : Bool :=
  state &&& flag == flag

/-- Embedding of the body of `GuiWin get_dimensions` (guiwin.rs lines
110-116): copy the three raw fields and surface exactly the FULL_SCREEN bit
of the window-state bitmask. -/
def get_dimensions (dims : RawDims) (window_state : Nat) : Dims :=
  { pixel_width := dims.pixel_width
    pixel_height := dims.pixel_height
    dpi := dims.dpi
    is_full_screen := windowStateContains window_state FULL_SCREEN }

/-! ## Wide-string conversion (`wstr`) -/

/-- Embedding of `slice.iter().position(|&c| c == 0)`. -/
def positionOfZero : List Nat → Option Nat
  | [] => none
  | c :: rest => if c == 0 then some 0 else (positionOfZero rest).map (· + 1)

/-- Length kept by `wstr` (connection.rs line 260): index of the first zero
code unit, or 0 when there is none (`unwrap_or(0)`). -/
def wstrLen (slice : List Nat) : Nat :=
  (positionOfZero slice).getD 0

/-- Code units that `wstr` actually hands to the UTF-16 decoder:
`&slice[0..len]`. -/
def wstrUnits (slice : List Nat) : List Nat :=
  slice.take (wstrLen slice)

/-- Embedding of `wstr` (connection.rs lines 259-264). The lossy UTF-16
decoding done by `OsString::from_wide` / `to_string_lossy` is standard
library code, abstracted as the `decode` argument. -/
def wstr (decode : List Nat → String) (slice : List Nat) : String :=
  decode (wstrUnits slice)

/-! ## Handle table and the request/response bridge -/

/-- Handle table of the `Connection` (connection.rs line 32): a map from the
opaque window handle (modelled as `Nat`) to the window record, modelled as an
association list. -/
def getAssoc {W : Type} (windows : List (Nat × W)) (handle : Nat) : Option W :=
  (windows.find? (fun p => p.1 == handle)).map (fun p => p.2)

/-- Embedding of `Connection::get_window` (connection.rs lines 227-229):
look the handle up in the `windows` map. -/
def get_window {W : Type} (windows : List (Nat × W)) (handle : Nat) : Option W :=
  getAssoc windows handle

/-- Value sitting in a query's rendezvous channel after its work item has
run: the work item of `Connection::with_window_inner` (connection.rs lines
243-251) calls `prom.result (f inner)` only when `get_window` resolves the
handle; when it does not, nothing is ever sent. -/
def with_window_inner_deliver {W R : Type} (windows : List (Nat × W))
    (handle : Nat) (f : W → Except String R) : Option (Except String R) :=
  match get_window windows handle with
  | some inner => some (f inner)
  | none => none

/-- Modelled from the spec: the promise crate that backs
`with_window_inner`'s future is not under src. Section 4.3 of the spec
states that when nothing is sent into the channel the awaiting caller hangs
indefinitely, so the number of terminal outcomes the caller receives is 1
when a value was sent and 0 otherwise. -/
def awaitOutcomes {A : Type} (sent : Option A) : Nat :=
  match sent with
  | some _ => 1
  | none => 0

/-! ## Selection-as-transcript query (`get_selection_escapes_for_pane`) -/

/-- Modelled from the spec: termwiz cell attributes, treated opaquely by the
transcript black box; only `blank` is distinguished. -/
structure CellAttributes where
  tag : Nat
deriving DecidableEq, Repr

/-- Blank attributes, the starting and final attribute state of
`lines_to_escapes`. -/
def CellAttributes.blank : CellAttributes := ⟨0⟩

/-- Modelled from the spec: the termwiz `Change` stream fed to the renderer;
only the constructors that `lines_to_escapes` itself pushes are
distinguished, anything produced by `line.changes` is wrapped opaquely. -/
inductive Change
  | text (s : String)
  | allAttributes (a : CellAttributes)
  | other (tag : Nat)
deriving DecidableEq, Repr

/-- Modelled from the spec: a terminal line as the transcript formatter sees
it — the change stream it contributes relative to the running attributes,
and the attributes of its last cell when it has one. -/
structure Line where
  changesFrom : CellAttributes → List Change
  lastCellAttrs : Option CellAttributes

/-- Fold step of `lines_to_escapes` (guiwin.rs lines 270-276): append the
line's changes, push a CRLF text change, and carry the last cell's
attributes forward when present. -/
def linesToChangesStep (acc : List Change × CellAttributes) (line : Line) :
    List Change × CellAttributes :=
  let changes := acc.1 ++ line.changesFrom acc.2 ++ [Change.text "\r\n"]
  let attr := match line.lastCellAttrs with
    | some a => a
    | none => acc.2
  (changes, attr)

/-- Embedding of `lines_to_escapes` (guiwin.rs lines 267-302): build the
change stream, close with a blank `AllAttributes`, render to bytes with the
external wezterm terminfo renderer (abstracted as `renderer`, which per the
spec fails only on encoding errors), and decode the bytes as UTF-8
(abstracted as `utf8`, `none` meaning `String::from_utf8` failed). -/
def lines_to_escapes (renderer : List Change → Except String (List Nat))
    (utf8 : List Nat → Option String) (lines : List Line) :
    Except String String :=
  let folded := lines.foldl linesToChangesStep ([], CellAttributes.blank)
  let changes := folded.1 ++ [Change.allAttributes CellAttributes.blank]
  match renderer changes with
  | Except.error e => Except.error e
  | Except.ok bytes =>
    match utf8 bytes with
    | some s => Except.ok s
    | none => Except.error "invalid utf8"

/-- Modelled from the spec: a pane held by the external mux content
registry, treated opaquely. -/
structure Pane where
  tag : Nat
deriving DecidableEq, Repr

/-- Modelled from the spec: the mux content registry — `Mux::get()` yields
`none` off the main thread; `get_pane` looks a pane id up in the registry. -/
structure MuxState where
  panes : List (Nat × Pane)
deriving DecidableEq, Repr

/-- Embedding of `mux.get_pane(pane_id)` over the registry model. -/
def MuxState.get_pane (mux : MuxState) (pane_id : Nat) : Option Pane :=
  getAssoc mux.panes pane_id

/-- Embedding of the inner `do_it` of `get_selection_escapes_for_pane`
(guiwin.rs lines 244-255): fail when the mux is unavailable, fail with
"invalid pane <id>" when the pane id does not resolve, otherwise extract the
selection lines (abstracted as `sel`, the external
`term_window.selection_lines`) and hand them to `lines_to_escapes`. -/
def do_it (mux : Option MuxState) (sel : Pane → List Line)
    (renderer : List Change → Except String (List Nat))
    (utf8 : List Nat → Option String) (pane_id : Nat) : Except String String :=
  match mux with
  | none => Except.error "not called on main thread"
  | some mux =>
    match mux.get_pane pane_id with
    | none => Except.error ("invalid pane " ++ toString pane_id)
    | some pane => lines_to_escapes renderer utf8 (sel pane)

/-- Outcome delivered to the awaiting caller of
`get_selection_escapes_for_pane` once its work item executes (guiwin.rs
lines 243-259): the work item unconditionally `try_send`s the `do_it` result
into the capacity-one channel, so `rx.recv()` terminates with exactly that
value (`some r` models "the await resumed with r"). -/
def get_selection_escapes_for_pane (mux : Option MuxState)
    (sel : Pane → List Line)
    (renderer : List Change → Except String (List Nat))
    (utf8 : List Nat → Option String) (pane_id : Nat) :
    Option (Except String String) :=
  some (do_it mux sel renderer utf8 pane_id)

/-! ## Message loop (`ConnectionOps::run_message_loop`) -/

/-- Native message popped by `PeekMessageW`; only `WM_QUIT` is distinguished
by the loop, every other message code is dispatched. -/
inductive Msg
  | quit
  | other (code : Nat)
deriving DecidableEq, Repr

/-- Observable action of one step of the message loop: `drain` is the
`SPAWN_QUEUE.run()` call at the top of each iteration (the spawn crate is
not under src; per spec section 4.2 it drains the work queue completely),
`dispatch m` is `DispatchMessageW` on a popped non-quit message, and `wait`
is the blocking `wait_message` call (`MsgWaitForMultipleObjects` on the
wake event handle together with all native event classes, connection.rs
lines 215-225), taken exactly when the non-blocking peek found nothing. -/
inductive LoopAction
  | drain
  | dispatch (m : Msg)
  | wait
deriving DecidableEq, Repr

/-- Result of running the message loop over a finite schedule of peek
results: the trace of actions taken, and `some finalWindows` when the loop
returned (which it does only on `WM_QUIT`), `none` when the schedule ran
out with the loop still going. -/
structure LoopResult (W : Type) where
  trace : List LoopAction
  outcome : Option (List (Nat × W))
deriving Repr

/-- Embedding of `run_message_loop` (connection.rs lines 62-87), driven by
`polls`, the successive results of the non-blocking `PeekMessageW` (`none`
when no message was available). Each iteration first runs the spawn queue
(whose effect on the handle table is the abstract `drainEff`), then peeks:
on `WM_QUIT` it clears the windows map and returns; on another message it
dispatches it (abstract effect `dispatchEff`); on no message it blocks in
`wait_message` and loops. -/
def run_message_loop {W : Type} (drainEff : List (Nat × W) → List (Nat × W))
    (dispatchEff : Msg → List (Nat × W) → List (Nat × W))
    (windows : List (Nat × W)) : List (Option Msg) → LoopResult W
  | [] => ⟨[], none⟩
  | poll :: rest =>
    let windows1 := drainEff windows
    match poll with
    | some Msg.quit => ⟨[LoopAction.drain], some []⟩
    | some m =>
        let r := run_message_loop drainEff dispatchEff (dispatchEff m windows1) rest
        ⟨LoopAction.drain :: LoopAction.dispatch m :: r.trace, r.outcome⟩
    | none =>
        let r := run_message_loop drainEff dispatchEff windows1 rest
        ⟨LoopAction.drain :: LoopAction.wait :: r.trace, r.outcome⟩

/-- Expected action block of a single loop iteration given that iteration's
peek result: always drain first, then return (on quit), dispatch (on a
message) or block (on none). -/
def iterBlock : Option Msg → List LoopAction
  | some Msg.quit => [LoopAction.drain]
  | some m => [LoopAction.drain, LoopAction.dispatch m]
  | none => [LoopAction.drain, LoopAction.wait]

/-- Polls strictly before the first quit poll of a schedule. -/
def preQuit : List (Option Msg) → List (Option Msg)
  | [] => []
  | p :: rest => if p = some Msg.quit then [] else p :: preQuit rest

/-! ## Display enumeration (`ConnectionOps::screens`) -/

/-- Rectangle in euclid's (origin, size) form as built by the monitor
callback: (left, top, width, height), all integral. -/
structure Rect where
  x : Int
  y : Int
  w : Int
  h : Int
deriving DecidableEq, Repr

/-- Union of two euclid rects: the smallest rect covering both. -/
def Rect.union (a b : Rect) : Rect :=
  let l := min a.x b.x
  let t := min a.y b.y
  let r := max (a.x + a.w) (b.x + b.w)
  let bo := max (a.y + a.h) (b.y + b.h)
  ⟨l, t, r - l, bo - t⟩

/-- Per-monitor screen record (name, rectangle, scale 1.0 — scale is fixed
by the source, so it is omitted from the model). -/
structure ScreenInfo where
  name : String
  rect : Rect
deriving DecidableEq, Repr

/-- Snapshot returned by `screens` (connection.rs lines 196-201). -/
structure Screens where
  main : ScreenInfo
  active : ScreenInfo
  by_name : List (String × ScreenInfo)
  virtual_rect : Rect
deriving DecidableEq, Repr

/-- Data the OS hands the `EnumDisplayMonitors` callback for one monitor:
the GDI device name (already through `wstr`; decoding is modelled by
`wstr` separately), the monitor rectangle, the PRIMARY flag of
`MONITORINFOEXW.dwFlags`, and whether this monitor handle equals the
active handle captured before enumeration. -/
structure MonitorInfo where
  deviceName : String
  left : Int
  top : Int
  right : Int
  bottom : Int
  isPrimary : Bool
  isActive : Bool
deriving DecidableEq, Repr

/-- Insert-or-replace into an association list, modelling
`HashMap::insert`. -/
def insertAssoc {V : Type} (m : List (String × V)) (k : String) (v : V) :
    List (String × V) :=
  match m with
  | [] => [(k, v)]
  | (k0, v0) :: rest =>
    if k0 == k then (k, v) :: rest else (k0, v0) :: insertAssoc rest k v

/-- Lookup in a string-keyed association list, modelling `HashMap::get`. -/
def lookupAssoc {V : Type} (m : List (String × V)) (k : String) : Option V :=
  (m.find? (fun p => p.1 == k)).map (fun p => p.2)

/-- Friendly-name resolution of the monitor callback (connection.rs lines
118-132): preferred lookup in the friendly-names map; on a miss, fall back
to `EnumDisplayDevicesW` (abstracted as `enumDev`, `none` meaning the call
failed), and to "Unknown" when that fails too. -/
def resolveFriendlyName (friendly : List (String × String))
    (enumDev : String → Option String) (monitor_name : String) : String :=
  match lookupAssoc friendly monitor_name with
  | some name => name
  | none =>
    match enumDev monitor_name with
    | some deviceString => deviceString
    | none => "Unknown"

/-- Embedding of the GDI path shortening (connection.rs lines 140-144):
a leading backslash-backslash-dot-backslash is removed. -/
def stripDisplayPathShort (name : String) : String :=
  if name.startsWith "\\\\.\\" then name.drop 4 else name

/-- Accumulator threaded through the monitor enumeration callback
(connection.rs struct `Info`, lines 96-104; the two name maps and the
fallback lookup are carried alongside). -/
structure EnumInfo where
  primary : Option ScreenInfo
  active : Option ScreenInfo
  by_name : List (String × ScreenInfo)
  virtual_rect : Rect
deriving DecidableEq, Repr

/-- Embedding of the `EnumDisplayMonitors` callback body (connection.rs
lines 106-171) for one monitor. -/
def screensCallback (friendly adapters : List (String × String))
    (enumDev : String → Option String) (info : EnumInfo) (m : MonitorInfo) :
    EnumInfo :=
  let monitor_name := m.deviceName
  let friendly_name := resolveFriendlyName friendly enumDev monitor_name
  let adapter_name := match lookupAssoc adapters monitor_name with
    | some name => name
    | none => "Unknown"
  let monitor_name := stripDisplayPathShort monitor_name
  let monitor_name := monitor_name ++ ": " ++ friendly_name ++ " on " ++ adapter_name
  let screen_info : ScreenInfo :=
    ⟨monitor_name, ⟨m.left, m.top, m.right - m.left, m.bottom - m.top⟩⟩
  { primary := if m.isPrimary then some screen_info else info.primary
    active := if m.isActive then some screen_info else info.active
    by_name := insertAssoc info.by_name monitor_name screen_info
    virtual_rect := info.virtual_rect.union screen_info.rect }

/-- Embedding of `ConnectionOps::screens` (connection.rs lines 95-202).
`friendlyResult` is the result of
`gdi_display_name_to_friendly_monitor_names()` (propagated with `?`),
`adapters` the result of `gdi_display_name_to_adapter_names()`, `enumDev`
the per-device fallback lookup, and `monitors` the monitors the OS
enumerates. Fails only when the friendly-name map construction failed or
when no monitor is flagged primary. -/
def screens (friendlyResult : Except String (List (String × String)))
    (adapters : List (String × String)) (enumDev : String → Option String)
    (monitors : List MonitorInfo) : Except String Screens :=
  match friendlyResult with
  | Except.error e => Except.error e
  | Except.ok friendly =>
    let info := monitors.foldl (screensCallback friendly adapters enumDev)
      ⟨none, none, [], ⟨0, 0, 0, 0⟩⟩
    match info.primary with
    | none => Except.error "There is no primary monitor configured!?"
    | some main =>
      let active := match info.active with
        | some a => a
        | none => main
      Except.ok ⟨main, active, info.by_name, info.virtual_rect⟩

/-! ## Display-config buffer negotiation
(`gdi_display_name_to_friendly_monitor_names`) -/

/-- Outcome of one `GetDisplayConfigBufferSizes` call: non-success, or the
path/mode counts it reported. -/
inductive BufferSizesOutcome
  | failure
  | counts (path_count mode_count : Nat)
deriving DecidableEq, Repr

/-- One active display path as the second phase of the function consumes
it: the results of the two `DisplayConfigGetDeviceInfo` calls, `none`
meaning the call returned non-success; on success, the UCS2 friendly
monitor name and the UCS2 GDI source name. -/
structure PathInfo where
  targetNameResult : Option (List Nat)
  sourceNameResult : Option (List Nat)
deriving DecidableEq, Repr

/-- Outcome of one `QueryDisplayConfig` call: the insufficient-buffer code
(which makes the loop retry), some other non-success code, or success with
the (already shrunk) path list. -/
inductive QueryOutcome
  | insufficient
  | failure
  | success (paths : List PathInfo)
deriving DecidableEq, Repr

/-- OS behaviour of one iteration of the negotiation loop. -/
structure IterBehavior where
  sizes : BufferSizesOutcome
  query : QueryOutcome
deriving DecidableEq, Repr

/-- Terminal result an iteration produces on its own: a contextualized
error when `GetDisplayConfigBufferSizes` fails, nothing (retry) on
insufficient buffer, a contextualized error on another `QueryDisplayConfig`
failure, and the path snapshot on success. -/
def iterOutcome (b : IterBehavior) : Option (Except String (List PathInfo)) :=
  match b.sizes with
  | BufferSizesOutcome.failure => some (Except.error "GetDisplayConfigBufferSizes")
  | BufferSizesOutcome.counts _ _ =>
    match b.query with
    | QueryOutcome.insufficient => none
    | QueryOutcome.failure => some (Except.error "QueryDisplayConfig")
    | QueryOutcome.success paths => some (Except.ok paths)

/-- Embedding of the retry loop of
`gdi_display_name_to_friendly_monitor_names` (connection.rs lines 295-339).
`os i` is the OS behaviour at iteration `i`; the source loop has no
iteration cap, so the embedding carries explicit fuel and returns `none`
when the fuel runs out with the loop still spinning. -/
def negotiationLoop (os : Nat → IterBehavior) :
    Nat → Nat → Option (Except String (List PathInfo))
  | 0, _ => none
  | fuel + 1, i =>
    let b := os i
    match b.sizes with
    | BufferSizesOutcome.failure =>
      some (Except.error "GetDisplayConfigBufferSizes")
    | BufferSizesOutcome.counts _ _ =>
      match b.query with
      | QueryOutcome.insufficient => negotiationLoop os fuel (i + 1)
      | QueryOutcome.failure => some (Except.error "QueryDisplayConfig")
      | QueryOutcome.success paths => some (Except.ok paths)

/-- Embedding of the per-path map-building phase (connection.rs lines
341-370): each path resolves its target (friendly) name and its source
(GDI) name, a non-success of either `DisplayConfigGetDeviceInfo` call is a
contextualized error for the whole function. -/
def buildFriendlyEntry (decode : List Nat → String) (p : PathInfo) :
    Except String (String × String) :=
  match p.targetNameResult with
  | none =>
    Except.error "DisplayConfigGetDeviceInfo DISPLAYCONFIG_DEVICE_INFO_GET_TARGET_NAME"
  | some tname =>
    match p.sourceNameResult with
    | none =>
      Except.error "DisplayConfigGetDeviceInfo DISPLAYCONFIG_DEVICE_INFO_GET_SOURCE_NAME"
    | some sname => Except.ok (wstr decode sname, wstr decode tname)

/-- Map-building fold over the paths (connection.rs lines 341-370). -/
def buildFriendlyMap (decode : List Nat → String) :
    List PathInfo → List (String × String) → Except String (List (String × String))
  | [], m => Except.ok m
  | p :: rest, m =>
    match buildFriendlyEntry decode p with
    | Except.error e => Except.error e
    | Except.ok kv => buildFriendlyMap decode rest (insertAssoc m kv.1 kv.2)

/-- Embedding of the whole of
`gdi_display_name_to_friendly_monitor_names` (connection.rs lines 288-372):
run the negotiation loop (`none` when the given fuel did not suffice, which
models the unbounded source loop still spinning), then build the
GDI-name-to-friendly-name map. -/
def gdi_display_name_to_friendly_monitor_names (decode : List Nat → String)
    (os : Nat → IterBehavior) (fuel : Nat) :
    Option (Except String (List (String × String))) :=
  match negotiationLoop os fuel 0 with
  | none => none
  | some (Except.error e) => some (Except.error e)
  | some (Except.ok paths) => some (buildFriendlyMap decode paths [])

/-- Boundedness of the retry count as the claim states it: some fuel bound
`N` makes the negotiation loop terminate against every possible OS
behaviour within `N` iterations. -/
def negotiationRetryBounded : Prop :=
  ∃ N : Nat, ∀ os : Nat → IterBehavior, (negotiationLoop os N 0).isSome = true

/-! ## Theorems -/

/-- C6: the appearance query returns one of exactly the two tags Light and
Dark; when the Personalize subkey does not open, or opens but the
AppsUseLightTheme value is unreadable (the fresh, never-customized
preference), it returns Light; it is a pure function of the registry view,
so it mutates no state. -/
theorem get_appearance_light_dark_default (reg : ThemeRegistry) :
    (get_appearance reg = Appearance.Light ∨ get_appearance reg = Appearance.Dark)
    ∧ (reg.personalizeKey = none → get_appearance reg = Appearance.Light)
    ∧ (reg.personalizeKey = some none → get_appearance reg = Appearance.Light) := by
  obtain ⟨k⟩ := reg
  refine ⟨?_, ?_, ?_⟩
  · cases k with
    | none => exact Or.inl rfl
    | some v =>
      cases v with
      | none => exact Or.inl rfl
      | some n =>
        simp only [get_appearance]
        split
        · exact Or.inl rfl
        · exact Or.inr rfl
  · intro h
    cases k with
    | none => rfl
    | some v => exact absurd h (by simp)
  · intro h
    cases k with
    | none => exact absurd h (by simp)
    | some v =>
      cases v with
      | none => rfl
      | some n => exact absurd h (by simp)

/-- Witness for C6 at the two concrete fresh-registry inputs. -/
theorem get_appearance_default_witness :
    get_appearance ⟨none⟩ = Appearance.Light
    ∧ get_appearance ⟨some none⟩ = Appearance.Light :=
  ⟨(get_appearance_light_dark_default ⟨none⟩).2.1 rfl,
   (get_appearance_light_dark_default ⟨some none⟩).2.2 rfl⟩

/-- Bitflags containment against the single FULL_SCREEN bit is exactly a
test of bit 2. -/
theorem windowStateContains_full_screen (u : Nat) :
    windowStateContains u FULL_SCREEN = u.testBit 2 := by
  unfold windowStateContains FULL_SCREEN
  have h4 : (4 : Nat) = 2 ^ 2 := by norm_num
  rw [h4, Nat.and_two_pow]
  cases hu : u.testBit 2 <;> simp [hu]

/-- C7: the record built by get_dimensions carries exactly the raw width,
height and dpi plus is_full_screen, which is true iff the FULL_SCREEN bit
of the native window-state bitmask is set; bitmasks agreeing on that single
bit yield identical records, so no other bit affects the result. -/
theorem get_dimensions_full_screen_bit (dims : RawDims) (s t : Nat)
    (h : s.testBit 2 = t.testBit 2) :
    ((get_dimensions dims s).is_full_screen = true ↔ s.testBit 2 = true)
    ∧ get_dimensions dims s = get_dimensions dims t := by
  constructor
  · simp [get_dimensions, windowStateContains_full_screen]
  · simp [get_dimensions, windowStateContains_full_screen, h]

/-- Witness for C7 at a concrete window state with only the FULL_SCREEN
bit set. -/
theorem get_dimensions_full_screen_witness :
    (get_dimensions ⟨800, 600, 96⟩ 4).is_full_screen = true :=
  ((get_dimensions_full_screen_bit ⟨800, 600, 96⟩ 4 4 rfl).1).mpr (by decide)

/-- Position search returns none exactly on zero-free slices. -/
theorem positionOfZero_of_not_mem {slice : List Nat} (h : 0 ∉ slice) :
    positionOfZero slice = none := by
  induction slice with
  | nil => rfl
  | cons c rest ih =>
    have hc : c ≠ 0 := fun hc => h (hc ▸ List.mem_cons_self c rest)
    have hrest : 0 ∉ rest := fun hm => h (List.mem_cons_of_mem c hm)
    simp [positionOfZero, beq_iff_eq, hc, ih hrest]

/-- Position search succeeds on slices containing a zero. -/
theorem positionOfZero_isSome_of_mem {slice : List Nat} (h : 0 ∈ slice) :
    (positionOfZero slice).isSome = true := by
  induction slice with
  | nil => cases h
  | cons c rest ih =>
    by_cases hc : c = 0
    · simp [positionOfZero, hc]
    · have hrest : 0 ∈ rest := by
        cases List.mem_cons.mp h with
        | inl h0 => exact absurd h0.symm hc
        | inr h1 => exact h1
      simpa [positionOfZero, beq_iff_eq, hc] using ih hrest

/-- On a slice containing a zero, taking up to the first zero is exactly
the maximal zero-free prefix. -/
theorem take_positionOfZero_of_mem {slice : List Nat} (h : 0 ∈ slice) :
    slice.take ((positionOfZero slice).getD 0)
      = slice.takeWhile (fun c => c != 0) := by
  induction slice with
  | nil => cases h
  | cons c rest ih =>
    by_cases hc : c = 0
    · subst hc
      simp [positionOfZero, List.takeWhile]
    · have hrest : 0 ∈ rest := by
        cases List.mem_cons.mp h with
        | inl h0 => exact absurd h0.symm hc
        | inr h1 => exact h1
      obtain ⟨i, hi⟩ := Option.isSome_iff_exists.mp (positionOfZero_isSome_of_mem hrest)
      have hrec := ih hrest
      rw [hi] at hrec
      simp only [Option.getD_some] at hrec
      have hcb : (c != 0) = true := by simp [hc]
      simp [positionOfZero, beq_iff_eq, hc, hi, List.takeWhile, hcb]
      exact hrec

/-- C10: wstr truncates at the first zero code unit (it decodes exactly the
maximal zero-free prefix), and a slice with no zero code unit at all is
converted to the empty string — its entire content is discarded by the
unwrap_or(0) default rather than decoded. -/
theorem wstr_truncates_at_zero (decode : List Nat → String)
    (hdec : decode [] = "") (slice : List Nat) :
    (0 ∈ slice → wstrUnits slice = slice.takeWhile (fun c => c != 0))
    ∧ (0 ∉ slice → wstr decode slice = "") := by
  constructor
  · intro h
    unfold wstrUnits wstrLen
    exact take_positionOfZero_of_mem h
  · intro h
    unfold wstr wstrUnits wstrLen
    rw [positionOfZero_of_not_mem h]
    simpa using hdec

/-- Witness for C10: a concrete zero-free slice converts to the empty
string under a concrete decoder. -/
theorem wstr_truncates_witness :
    wstr (fun l => String.mk (l.map Char.ofNat)) [65, 66] = "" :=
  (wstr_truncates_at_zero (fun l => String.mk (l.map Char.ofNat)) rfl [65, 66]).2
    (by decide)

/-- C2: when the window handle no longer resolves in the handle table at
the time the work item of with_window_inner executes, nothing is sent into
the query's rendezvous channel and the awaiting caller receives no value
from the work item. -/
theorem with_window_inner_dead_handle_sends_nothing {W R : Type}
    (windows : List (Nat × W)) (handle : Nat) (f : W → Except String R)
    (h : get_window windows handle = none) :
    with_window_inner_deliver windows handle f = none
    ∧ awaitOutcomes (with_window_inner_deliver windows handle f) = 0 := by
  unfold with_window_inner_deliver
  rw [h]
  exact ⟨rfl, rfl⟩

/-- Witness for C2 at a concrete table that does not contain the handle. -/
theorem with_window_inner_dead_handle_witness :
    with_window_inner_deliver ([(2, 0)] : List (Nat × Nat)) 1
      (fun w => Except.ok w) = none :=
  (with_window_inner_dead_handle_sends_nothing [(2, 0)] 1
    (fun w => Except.ok w) (by decide)).1

/-- C1: at the failing input — a query routed through with_window_inner
whose window handle was already removed from the handle table — the
awaiting caller receives zero terminal outcomes, contradicting the
exactly-one-outcome invariant; the spec itself marks this path as an open
defect of the code. -/
theorem query_dead_handle_zero_outcomes :
    awaitOutcomes (with_window_inner_deliver ([] : List (Nat × Nat)) 1
      (fun w => Except.ok w)) = 0 := rfl

/-- C5: once the work item of get_selection_escapes_for_pane executes with
the mux available, the caller's await terminates: an unresolved pane id
yields the typed "invalid pane" error value (not a hang, not a crash), and
a resolved pane yields exactly the transcript produced by lines_to_escapes
from that pane's selection lines. -/
theorem get_selection_escapes_outcome (mux : MuxState) (sel : Pane → List Line)
    (renderer : List Change → Except String (List Nat))
    (utf8 : List Nat → Option String) (pane_id : Nat) :
    (mux.get_pane pane_id = none →
      get_selection_escapes_for_pane (some mux) sel renderer utf8 pane_id
        = some (Except.error ("invalid pane " ++ toString pane_id)))
    ∧ (∀ pane, mux.get_pane pane_id = some pane →
      get_selection_escapes_for_pane (some mux) sel renderer utf8 pane_id
        = some (lines_to_escapes renderer utf8 (sel pane))) := by
  constructor
  · intro h
    simp only [get_selection_escapes_for_pane, do_it, h]
  · intro pane h
    simp only [get_selection_escapes_for_pane, do_it, h]

/-- Witness for C5: a registry holding only pane 1, queried for pane 42,
delivers the typed invalid-pane error. -/
theorem get_selection_escapes_witness :
    get_selection_escapes_for_pane (some ⟨[(1, ⟨0⟩)]⟩) (fun _ => [])
      (fun _ => Except.ok []) (fun _ => some "") 42
      = some (Except.error ("invalid pane " ++ toString 42)) :=
  (get_selection_escapes_outcome ⟨[(1, ⟨0⟩)]⟩ (fun _ => [])
    (fun _ => Except.ok []) (fun _ => some "") 42).1 (by decide)

/-- Termination of the message loop is equivalent to a quit poll appearing
in the schedule, for every state of the handle table. -/
theorem run_message_loop_outcome_isSome {W : Type}
    (drainEff : List (Nat × W) → List (Nat × W))
    (dispatchEff : Msg → List (Nat × W) → List (Nat × W)) :
    ∀ (polls : List (Option Msg)) (windows : List (Nat × W)),
    ((run_message_loop drainEff dispatchEff windows polls).outcome.isSome = true
      ↔ some Msg.quit ∈ polls) := by
  intro polls
  induction polls with
  | nil => intro windows; simp [run_message_loop]
  | cons p rest ih =>
    intro windows
    match p with
    | some Msg.quit => simp [run_message_loop]
    | some (Msg.other c) => simp [run_message_loop, ih]
    | none => simp [run_message_loop, ih]

/-- Running the loop up to and including the first quit poll: the final
drain happens, the table is cleared, and nothing of the rest of the
schedule is acted upon. -/
theorem run_message_loop_trace_quit {W : Type}
    (drainEff : List (Nat × W) → List (Nat × W))
    (dispatchEff : Msg → List (Nat × W) → List (Nat × W)) :
    ∀ (pre : List (Option Msg)), some Msg.quit ∉ pre →
    ∀ (post : List (Option Msg)) (windows : List (Nat × W)),
    run_message_loop drainEff dispatchEff windows (pre ++ some Msg.quit :: post)
      = ⟨(run_message_loop drainEff dispatchEff windows pre).trace
          ++ [LoopAction.drain], some []⟩ := by
  intro pre
  induction pre with
  | nil =>
    intro _ post windows
    simp [run_message_loop]
  | cons p rest ih =>
    intro hmem post windows
    have hrest : some Msg.quit ∉ rest := fun hm => hmem (List.mem_cons_of_mem p hm)
    match p with
    | some Msg.quit => exact absurd (List.mem_cons_self _ _) hmem
    | some (Msg.other c) =>
      simp [run_message_loop, ih hrest]
    | none =>
      simp [run_message_loop, ih hrest]

/-- C3: on the first quit poll, the loop drains, clears the handle table
and returns: the returned table is empty (teardown before return), the
trace is exactly the pre-quit trace plus the quit iteration's drain — so no
native event after the quit is ever dispatched — and the loop returns only
when some poll yielded a quit message. -/
theorem run_message_loop_quit_teardown {W : Type}
    (drainEff : List (Nat × W) → List (Nat × W))
    (dispatchEff : Msg → List (Nat × W) → List (Nat × W))
    (windows : List (Nat × W)) (pre post : List (Option Msg))
    (hpre : some Msg.quit ∉ pre) :
    (run_message_loop drainEff dispatchEff windows
        (pre ++ some Msg.quit :: post)).outcome = some []
    ∧ (run_message_loop drainEff dispatchEff windows
        (pre ++ some Msg.quit :: post)).trace
        = (run_message_loop drainEff dispatchEff windows pre).trace
          ++ [LoopAction.drain]
    ∧ (∀ polls : List (Option Msg),
        (run_message_loop drainEff dispatchEff windows polls).outcome.isSome = true →
        some Msg.quit ∈ polls) := by
  have h2 := run_message_loop_trace_quit drainEff dispatchEff pre hpre post windows
  refine ⟨?_, ?_, ?_⟩
  · rw [h2]
  · rw [h2]
  · intro polls h
    exact (run_message_loop_outcome_isSome drainEff dispatchEff polls windows).mp h

/-- Witness for C3 on a concrete schedule with activity before and after
the quit poll. -/
theorem run_message_loop_quit_teardown_witness :
    (run_message_loop (W := Nat) id (fun _ w => w) [(1, 0)]
      ([some (Msg.other 5), none] ++ some Msg.quit :: [some (Msg.other 7)])).outcome
      = some [] :=
  (run_message_loop_quit_teardown id (fun _ w => w) [(1, 0)]
    [some (Msg.other 5), none] [some (Msg.other 7)] (by decide)).1

/-- C4: trace characterization of the loop's iteration structure: every
iteration is the complete work-queue drain followed by — depending on the
non-blocking peek — the dispatch of the one polled message, or the blocking
wait on native events plus the wake handle when no message was available;
a polled quit ends the run with that iteration's lone drain. -/
theorem run_message_loop_iteration_structure {W : Type}
    (drainEff : List (Nat × W) → List (Nat × W))
    (dispatchEff : Msg → List (Nat × W) → List (Nat × W))
    (windows : List (Nat × W)) (polls : List (Option Msg)) :
    (run_message_loop drainEff dispatchEff windows polls).trace
      = (preQuit polls).flatMap iterBlock
        ++ (if some Msg.quit ∈ polls then [LoopAction.drain] else []) := by
  induction polls generalizing windows with
  | nil => simp [run_message_loop, preQuit]
  | cons p rest ih =>
    match p with
    | some Msg.quit => simp [run_message_loop, preQuit, iterBlock]
    | some (Msg.other c) =>
      simp [run_message_loop, preQuit, iterBlock, ih]
    | none =>
      simp [run_message_loop, preQuit, iterBlock, ih]

/-- The enumeration fold records a primary screen exactly when one was
already recorded or some enumerated monitor carries the PRIMARY flag. -/
theorem screensFold_primary_isSome (friendly adapters : List (String × String))
    (enumDev : String → Option String) :
    ∀ (monitors : List MonitorInfo) (info : EnumInfo),
    ((monitors.foldl (screensCallback friendly adapters enumDev) info).primary).isSome
      = (info.primary.isSome || monitors.any (fun m => m.isPrimary)) := by
  intro monitors
  induction monitors with
  | nil => intro info; simp
  | cons m rest ih =>
    intro info
    rw [List.foldl_cons, ih]
    by_cases hm : m.isPrimary <;>
      simp [screensCallback, hm, Bool.or_assoc]

/-- C8: a display missing from the friendly-names map degrades to the
generic device name delivered by the fallback lookup, or to "Unknown" when
even the fallback fails, and the enumeration still produces a snapshot
whenever a primary monitor exists — the per-display preferred-lookup
failure is never fatal. -/
theorem screens_fallback_nonfatal (friendly adapters : List (String × String))
    (enumDev : String → Option String) (monitors : List MonitorInfo)
    (hprimary : monitors.any (fun m => m.isPrimary) = true) :
    (∃ s, screens (Except.ok friendly) adapters enumDev monitors = Except.ok s)
    ∧ (∀ name, lookupAssoc friendly name = none →
        resolveFriendlyName friendly enumDev name
          = (enumDev name).getD "Unknown") := by
  constructor
  · have h := screensFold_primary_isSome friendly adapters enumDev monitors
      ⟨none, none, [], ⟨0, 0, 0, 0⟩⟩
    rw [hprimary] at h
    simp only [Option.isSome_none, Bool.false_or] at h
    obtain ⟨main, hmain⟩ := Option.isSome_iff_exists.mp h
    simp only [screens, hmain]
    exact ⟨_, rfl⟩
  · intro name h
    unfold resolveFriendlyName
    rw [h]
    cases enumDev name <;> rfl

/-- Witness for C8: one primary monitor, an empty friendly map and a
failing fallback still produce a snapshot, and the name degrades to
"Unknown". -/
theorem screens_fallback_witness :
    (∃ s, screens (Except.ok []) [] (fun _ => none)
      [⟨"DISPLAY-A", 0, 0, 100, 50, true, true⟩] = Except.ok s)
    ∧ resolveFriendlyName [] (fun _ => none) "DISPLAY-A" = "Unknown" := by
  have h := screens_fallback_nonfatal [] [] (fun _ => none)
    [⟨"DISPLAY-A", 0, 0, 100, 50, true, true⟩] (by decide)
  exact ⟨h.1, h.2 "DISPLAY-A" rfl⟩

/-- One unfolding of the negotiation loop: a terminal iteration outcome is
returned as is, an insufficient-buffer iteration recurses. -/
theorem negotiationLoop_step (os : Nat → IterBehavior) (fuel j : Nat) :
    negotiationLoop os (fuel + 1) j
      = match iterOutcome (os j) with
        | some r => some r
        | none => negotiationLoop os fuel (j + 1) := by
  rcases hb : os j with ⟨sizes, query⟩
  cases sizes with
  | failure => simp [negotiationLoop, iterOutcome, hb]
  | counts pc mc =>
    cases query <;> simp [negotiationLoop, iterOutcome, hb]

/-- Starting anywhere in the schedule, the loop skips the consecutive
insufficient-buffer iterations and returns the first terminal iteration
outcome, given fuel beyond the failure streak. -/
theorem negotiationLoop_of_streak (os : Nat → IterBehavior) :
    ∀ (k j : Nat), (∀ i, i < k → iterOutcome (os (j + i)) = none) →
    iterOutcome (os (j + k)) ≠ none →
    ∀ fuel, k + 1 ≤ fuel → negotiationLoop os fuel j = iterOutcome (os (j + k)) := by
  intro k
  induction k with
  | zero =>
    intro j _ hstop fuel hfuel
    obtain ⟨m, rfl⟩ : ∃ m, fuel = m + 1 := by
      cases fuel with
      | zero => omega
      | succ m => exact ⟨m, rfl⟩
    rw [negotiationLoop_step]
    cases h : iterOutcome (os (j + 0)) with
    | none => exact absurd h hstop
    | some r =>
      simp only [Nat.add_zero] at h
      rw [h]
  | succ k ih =>
    intro j hk hstop fuel hfuel
    obtain ⟨m, rfl⟩ : ∃ m, fuel = m + 1 := by
      cases fuel with
      | zero => omega
      | succ m => exact ⟨m, rfl⟩
    rw [negotiationLoop_step]
    have h0 : iterOutcome (os j) = none := by
      have := hk 0 (Nat.succ_pos k)
      simpa using this
    rw [h0]
    have hk1 : ∀ i, i < k → iterOutcome (os (j + 1 + i)) = none := by
      intro i hi
      have := hk (i + 1) (by omega)
      have harith : j + (i + 1) = j + 1 + i := by omega
      rwa [harith] at this
    have hstop1 : iterOutcome (os (j + 1 + k)) ≠ none := by
      have harith : j + (k + 1) = j + 1 + k := by omega
      rwa [harith] at hstop
    have := ih (j + 1) hk1 hstop1 m (by omega)
    rw [this]
    have harith : j + 1 + k = j + (k + 1) := by omega
    rw [harith]

/-- C9 amended: the loop retries exactly while QueryDisplayConfig reports
insufficient buffer; at the first iteration with a terminal outcome it
stops — with the path snapshot on success, or with the error carrying the
failing call's name as context on any other failure of either call — and
after k consecutive insufficient-buffer iterations any fuel beyond k
suffices. -/
theorem negotiation_terminates_when_failure_stops (os : Nat → IterBehavior)
    (k : Nat) (hk : ∀ i, i < k → iterOutcome (os i) = none)
    (hstop : iterOutcome (os k) ≠ none) (fuel : Nat) (hfuel : k + 1 ≤ fuel) :
    negotiationLoop os fuel 0 = iterOutcome (os k) := by
  have hk0 : ∀ i, i < k → iterOutcome (os (0 + i)) = none := by
    intro i hi
    simpa using hk i hi
  have hstop0 : iterOutcome (os (0 + k)) ≠ none := by simpa using hstop
  have := negotiationLoop_of_streak os k 0 hk0 hstop0 fuel hfuel
  simpa using this

/-- Witness for C9's amended statement: two insufficient-buffer iterations
followed by a success terminate with the snapshot at fuel 3. -/
theorem negotiation_terminates_witness :
    negotiationLoop
      (fun i => if i < 2
        then ⟨BufferSizesOutcome.counts 1 1, QueryOutcome.insufficient⟩
        else ⟨BufferSizesOutcome.counts 1 1, QueryOutcome.success []⟩) 3 0
      = some (Except.ok []) := by
  have h := negotiation_terminates_when_failure_stops
    (fun i => if i < 2
      then ⟨BufferSizesOutcome.counts 1 1, QueryOutcome.insufficient⟩
      else ⟨BufferSizesOutcome.counts 1 1, QueryOutcome.success []⟩)
    2 (by intro i hi; interval_cases i <;> rfl)
    (by exact fun hcontra => Option.noConfusion hcontra) 3 (by decide)
  rw [h]
  rfl

/-- C9 counterexample: the retry count is not bounded — no fuel bound makes
the negotiation loop terminate against every OS behaviour, because
sustained insufficient-buffer answers keep it spinning forever. -/
theorem negotiation_retry_not_bounded : ¬ negotiationRetryBounded := by
  rintro ⟨N, hN⟩
  have hspin : ∀ (fuel i : Nat),
      negotiationLoop
        (fun _ => ⟨BufferSizesOutcome.counts 0 0, QueryOutcome.insufficient⟩)
        fuel i = none := by
    intro fuel
    induction fuel with
    | zero => intro i; rfl
    | succ n ih =>
      intro i
      simpa [negotiationLoop] using ih (i + 1)
  have h := hN (fun _ => ⟨BufferSizesOutcome.counts 0 0, QueryOutcome.insufficient⟩)
  rw [hspin N 0] at h
  simp at h

end WezTerm
